import Mathlib

/-!
Verification of the PDFImageMerger core: shallow embedding of the overlay
geometry controller (DraggableResizableImage.tsx), the page renderer's scale
and navigation (PdfEditor.tsx), and the export compositor and background
removal preprocessor (App.tsx).  Coordinates are modelled as rationals (the
source manipulates JS numbers only with +, -, *, /, min, max on the values
the claims concern, so ℚ is exact there); pixel channels are naturals.
-/

namespace PDFImageMerger

/-! ## Geometry data model (display-pixel space and point space) -/

/-- A position in display-pixel space, `{x, y}` in the source. -/
structure Pos where
  x : ℚ
  y : ℚ
deriving DecidableEq, Repr

/-- A size in display-pixel space, `{width, height}` in the source. -/
structure Size where
  width : ℚ
  height : ℚ
deriving DecidableEq, Repr

/-- The overlay's committed geometry: `position` and `size` as held in
`ImageState` (App.tsx) and in `DraggableResizableImage`'s local state. -/
structure OverlayState where
  position : Pos
  size : Size
deriving DecidableEq, Repr

/-- A point-space rectangle as passed to `page.drawImage` in
`mergeAndDownload` (App.tsx): `{x, y, width, height}` in PDF points. -/
structure Rect where
  x : ℚ
  y : ℚ
  width : ℚ
  height : ℚ
deriving DecidableEq, Repr

/-- The `bounds` prop of `DraggableResizableImage`
(`{top, left, right, bottom}`); `PdfEditor` passes
`{top: 0, left: 0, right: canvas.width, bottom: canvas.height}`. -/
structure Bounds where
  top : ℚ
  left : ℚ
  right : ℚ
  bottom : ℚ
deriving DecidableEq, Repr

/-! ## Overlay geometry controller (DraggableResizableImage.tsx) -/

/-- `clamp(value, min, max) = Math.max(min, Math.min(value, max))`
(DraggableResizableImage.tsx line 33). -/
def clamp (value mn mx : ℚ) : ℚ := max mn (min value mx)

/-- The `move` branch of `handleMouseMove` (lines 43-46): `px`, `py` are the
pointer position relative to the parent (`e.clientX - parentRect.left`,
`e.clientY - parentRect.top`); `offx`, `offy` the grab offset. -/
def moveUpdate (bounds : Bounds) (s : OverlayState) (px py offx offy : ℚ) :
    OverlayState :=
  { s with position :=
      { x := clamp (px - offx) bounds.left (bounds.right - s.size.width)
      , y := clamp (py - offy) bounds.top (bounds.bottom - s.size.height) } }

/-- The `resize-br` branch of `handleMouseMove` (lines 47-51): width and
height are clamped to `[50, bounds.right - position.x]` and
`[50, bounds.bottom - position.y]`; the position does not move. -/
def resizeUpdate (bounds : Bounds) (s : OverlayState) (px py : ℚ) :
    OverlayState :=
  { s with size :=
      { width := clamp (px - s.position.x) 50 (bounds.right - s.position.x)
      , height := clamp (py - s.position.y) 50 (bounds.bottom - s.position.y) } }

/-- The four arrow keys handled by `handleKeyDown`. -/
inductive ArrowKey
  | up
  | down
  | left
  | right
deriving DecidableEq, Repr

/-- `const step = e.shiftKey ? 10 : 1` (line 98). -/
def nudgeStep (shiftKey : Bool) : ℚ := if shiftKey then 10 else 1

/-- The switch of `handleKeyDown` (lines 102-107): the un-clamped stepped
position `newPos`. -/
def nudgeTarget (s : OverlayState) (key : ArrowKey) (step : ℚ) : Pos :=
  match key with
  | .up => ⟨s.position.x, s.position.y - step⟩
  | .down => ⟨s.position.x, s.position.y + step⟩
  | .left => ⟨s.position.x - step, s.position.y⟩
  | .right => ⟨s.position.x + step, s.position.y⟩

/-- `handleKeyDown` (lines 94-112): step the position by the arrow key,
then clamp both coordinates exactly as a move (lines 108-109). -/
def nudgeUpdate (bounds : Bounds) (s : OverlayState) (key : ArrowKey)
    (shiftKey : Bool) : OverlayState :=
  let newPos := nudgeTarget s key (nudgeStep shiftKey)
  { s with position :=
      { x := clamp newPos.x bounds.left (bounds.right - s.size.width)
      , y := clamp newPos.y bounds.top (bounds.bottom - s.size.height) } }

/-- One committed interaction: a mouse move-drag (committed at mouse-up), a
bottom-right resize-drag, or a keyboard nudge (committed at key-up). -/
inductive Interaction
  | move (px py offx offy : ℚ)
  | resize (px py : ℚ)
  | nudge (key : ArrowKey) (shiftKey : Bool)
deriving DecidableEq, Repr

/-- Apply one interaction's geometry update to the overlay state. -/
def applyInteraction (bounds : Bounds) (s : OverlayState) :
    Interaction → OverlayState
  | .move px py offx offy => moveUpdate bounds s px py offx offy
  | .resize px py => resizeUpdate bounds s px py
  | .nudge key shiftKey => nudgeUpdate bounds s key shiftKey

/-- Fold a whole interaction history over a starting overlay state. -/
def applyHistory (bounds : Bounds) (s : OverlayState)
    (history : List Interaction) : OverlayState :=
  history.foldl (applyInteraction bounds) s

/-- The six committed-state invariants of spec §8.1, relative to raster
bounds `rw × rh`. -/
def overlayInvariants (rw rh : ℚ) (s : OverlayState) : Prop :=
  0 ≤ s.position.x ∧ 0 ≤ s.position.y ∧
    s.position.x + s.size.width ≤ rw ∧ s.position.y + s.size.height ≤ rh ∧
    50 ≤ s.size.width ∧ 50 ≤ s.size.height

instance (rw rh : ℚ) (s : OverlayState) :
    Decidable (overlayInvariants rw rh s) := by
  unfold overlayInvariants; infer_instance

/-- The bounds `PdfEditor` hands to the overlay controller:
`{top: 0, left: 0, right: rasterWidth, bottom: rasterHeight}`. -/
def rasterBounds (rw rh : ℚ) : Bounds := ⟨0, 0, rw, rh⟩

/-! ## Session image state (App.tsx) -/

/-- An image file as the session sees it: name plus declared MIME type. -/
structure ImageFile where
  name : String
  mime : String
deriving DecidableEq, Repr

/-- `ImageState` (App.tsx lines 12-17). -/
structure ImageState where
  file : Option ImageFile
  position : Pos
  size : Size
  objectUrl : Option String
deriving DecidableEq, Repr

/-- `initialImageState` (App.tsx lines 19-24). -/
def initialImageState : ImageState :=
  { file := none
  , position := ⟨50, 50⟩
  , size := ⟨150, 100⟩
  , objectUrl := none }

/-- `handleImageUpdate` (App.tsx lines 129-131): install a committed
position/size, keeping file and objectUrl. -/
def handleImageUpdate (st : ImageState) (pos : Pos) (sz : Size) : ImageState :=
  { st with position := pos, size := sz }

/-- `handleImageReset` (App.tsx lines 133-139): restore the initial
position and size, keeping file and objectUrl. -/
def handleImageReset (st : ImageState) : ImageState :=
  { st with
    position := initialImageState.position
  , size := initialImageState.size }

/-- Commit one interaction into the session image state: the controller
computes the new geometry and `onUpdate` installs it via
`handleImageUpdate`. -/
def commitInteraction (bounds : Bounds) (st : ImageState) (i : Interaction) :
    ImageState :=
  let s := applyInteraction bounds ⟨st.position, st.size⟩ i
  handleImageUpdate st s.position s.size

/-! ## Page renderer scale and navigation (PdfEditor.tsx) -/

/-- `calculatedScale = containerWidth / viewport.width` (PdfEditor.tsx
line 41), the display scale for a page of the given natural width. -/
def calculatedScale (containerWidth naturalWidth : ℚ) : ℚ :=
  containerWidth / naturalWidth

/-- `goToPrevPage = setCurrentPage(p => Math.max(1, p - 1))`
(PdfEditor.tsx line 90). -/
def goToPrevPage (p : ℤ) : ℤ := max 1 (p - 1)

/-- `goToNextPage = setCurrentPage(p => Math.min(totalPages, p + 1))`
(PdfEditor.tsx line 91). -/
def goToNextPage (totalPages p : ℤ) : ℤ := min totalPages (p + 1)

/-! ## Export compositor geometry (App.tsx, mergeAndDownload lines 184-196) -/

/-- The display-to-point conversion of `mergeAndDownload` (lines 186-189):
`x_pt = x/scale`, `y_pt = pageHeight - y/scale - height/scale`,
`width_pt = width/scale`, `height_pt = height/scale`. -/
def exportRect (scale pageHeight : ℚ) (s : OverlayState) : Rect :=
  { x := s.position.x / scale
  , y := pageHeight - s.position.y / scale - s.size.height / scale
  , width := s.size.width / scale
  , height := s.size.height / scale }

/-- The inverse transform named by spec §8.2: multiply by the scale, with
the matching vertical flip against the page height.  This is the spec-side
definition used to state the round-trip claim. -/
def inverseExportRect (scale pageHeight : ℚ) (r : Rect) : OverlayState :=
  { position :=
      { x := r.x * scale
      , y := (pageHeight - r.y - r.height) * scale }
  , size :=
      { width := r.width * scale
      , height := r.height * scale } }

/-! ## Export pipeline (App.tsx, mergeAndDownload lines 157-216) -/

/-- The loaded PDF as `mergeAndDownload` sees it after `PDFDocument.load`:
a name and one intrinsic height in points per page (`page.getHeight()`). -/
structure PdfFile where
  name : String
  pageHeights : List ℚ
deriving DecidableEq, Repr

/-- JS array indexing `getPages()[pageIndex]`: `undefined` (here `none`)
for a negative or out-of-range index. -/
def jsIndex (l : List ℚ) (i : ℤ) : Option ℚ :=
  if 0 ≤ i then l.get? i.toNat else none

/-- The failure modes of the export path.  `missingInputs`,
`unsupportedImageType` and the catch-all `mergeFailure` arise in the code;
`pageUndefined` is the TypeError raised when `page.getHeight()` is called on
the `undefined` result of an out-of-range page lookup; `pageIndexOutOfRange`
is the dedicated rejection named by the spec's export contract, kept in the
type so its absence from every run can be stated. -/
inductive MergeError
  | missingInputs
  | unsupportedImageType
  | pageUndefined
  | pageIndexOutOfRange
  | mergeFailure
deriving DecidableEq, Repr

/-- The pdf-lib image handle produced by `embedPng`/`embedJpg`. -/
structure EmbeddedImage where
  mime : String
deriving DecidableEq, Repr

/-- The embed branch of `mergeAndDownload` (lines 175-182): `embedPng` for
`image/png`, `embedJpg` for `image/jpeg`, otherwise the thrown
unsupported-image-type error. -/
def embedImage (img : ImageFile) : Except MergeError EmbeddedImage :=
  if img.mime = "image/png" then .ok ⟨img.mime⟩
  else if img.mime = "image/jpeg" then .ok ⟨img.mime⟩
  else .error .unsupportedImageType

/-- Outcome of one run of the try-block of `mergeAndDownload`: the result
(drawn rectangle on success) together with which effects actually ran. -/
structure MergeOutcome where
  result : Except MergeError Rect
  embedded : Bool
  drawn : Bool
  saved : Bool
deriving Repr

/-- The try-block of `mergeAndDownload` (lines 166-208), in source order:
resolve `getPages()[pageIndex]` (line 173, no range check), embed the image
(lines 175-182), read `page.getHeight()` (line 184, a TypeError when the
page lookup produced `undefined`), convert the geometry, draw, save. -/
def runMergeBody (doc : PdfFile) (img : ImageFile) (overlay : OverlayState)
    (pageIndex : ℤ) (scale : ℚ) : MergeOutcome :=
  let page := jsIndex doc.pageHeights pageIndex
  match embedImage img with
  | .error e => ⟨.error e, false, false, false⟩
  | .ok _ =>
    match page with
    | none => ⟨.error .pageUndefined, true, false, false⟩
    | some pageHeight =>
        ⟨.ok (exportRect scale pageHeight overlay), true, true, true⟩

/-- The session-level state `mergeAndDownload` reads and writes. -/
structure AppState where
  pdfFile : Option PdfFile
  image : ImageState
  error : Option String
  isProcessing : Bool
deriving DecidableEq, Repr

/-- The user-visible message for each failure, mirroring the translation
keys and the `err.message` fallback of the catch-block. -/
def errorMessage : MergeError → String
  | .missingInputs => "errorMissingFiles"
  | .unsupportedImageType => "errorUnsupportedImageType"
  | .pageUndefined => "TypeError: reading getHeight of undefined"
  | .pageIndexOutOfRange => "pageIndexOutOfRange"
  | .mergeFailure => "errorMerge"

/-- `mergeAndDownload(pageIndex, scale)` (lines 157-216): the guard returns
early with the missing-files error when the PDF or the image is absent;
otherwise the body runs, the catch-block surfaces a thrown error's message,
and the finally-block clears `isProcessing`. -/
def mergeAndDownload (pageIndex : ℤ) (scale : ℚ) (st : AppState) :
    AppState × MergeOutcome :=
  match st.pdfFile, st.image.file with
  | some pdf, some img =>
      let outcome := runMergeBody pdf img ⟨st.image.position, st.image.size⟩
        pageIndex scale
      ({ st with
          error := match outcome.result with
            | .error e => some (errorMessage e)
            | .ok _ => none
        , isProcessing := false }, outcome)
  | _, _ =>
      ({ st with error := some (errorMessage .missingInputs) },
        ⟨.error .missingInputs, false, false, false⟩)

/-! ## Background-removal preprocessor (App.tsx, removeWhiteBackground) -/

/-- One RGBA pixel of a canvas `ImageData` buffer; channels are 0..255. -/
structure Pixel where
  r : ℕ
  g : ℕ
  b : ℕ
  a : ℕ
deriving DecidableEq, Repr

/-- A decoded raster image: dimensions plus the pixel buffer in row order. -/
structure RawImage where
  width : ℕ
  height : ℕ
  pixels : List Pixel
deriving DecidableEq, Repr

/-- Output encodings of the preprocessor. -/
inductive OutputFormat
  | png
  | jpeg
deriving DecidableEq, Repr

/-- The loop body of `removeWhiteBackground` (App.tsx lines 47-54): a pixel
whose R, G and B all strictly exceed the threshold gets alpha 0; any other
pixel is untouched. -/
def processPixel (threshold : ℕ) (p : Pixel) : Pixel :=
  if threshold < p.r ∧ threshold < p.g ∧ threshold < p.b then
    { p with a := 0 }
  else p

/-- `removeWhiteBackground` (App.tsx lines 31-72) on the decoded pixel data:
threshold 240, every pixel processed in place, and the canvas re-encoded as
PNG (`canvas.toBlob(..., 'image/png')`). -/
def removeWhiteBackground (img : RawImage) : RawImage × OutputFormat :=
  let threshold : ℕ := 240
  ({ img with pixels := img.pixels.map (processPixel threshold) },
    OutputFormat.png)

/-- A fully white 2×2 RGBA image. -/
def white2x2 : RawImage :=
  ⟨2, 2, List.replicate 4 ⟨255, 255, 255, 255⟩⟩

/-- A fully black (opaque) 2×2 RGBA image. -/
def black2x2 : RawImage :=
  ⟨2, 2, List.replicate 4 ⟨0, 0, 0, 255⟩⟩

/-! ## Helper lemmas -/

theorem le_clamp (v mn mx : ℚ) : mn ≤ clamp v mn mx :=
  le_max_left mn (min v mx)

theorem clamp_le (v mn mx : ℚ) (h : mn ≤ mx) : clamp v mn mx ≤ mx :=
  max_le h (min_le_right v mx)

theorem jsIndex_eq_none (l : List ℚ) (i : ℤ)
    (h : i < 0 ∨ (l.length : ℤ) ≤ i) : jsIndex l i = none := by
  unfold jsIndex
  rcases h with h | h
  · rw [if_neg (by omega)]
  · rw [if_pos (by omega)]
    exact List.get?_eq_none.mpr (by omega)

theorem processPixel_r (t : ℕ) (p : Pixel) : (processPixel t p).r = p.r := by
  unfold processPixel; split <;> rfl

theorem processPixel_g (t : ℕ) (p : Pixel) : (processPixel t p).g = p.g := by
  unfold processPixel; split <;> rfl

theorem processPixel_b (t : ℕ) (p : Pixel) : (processPixel t p).b = p.b := by
  unfold processPixel; split <;> rfl

theorem processPixel_a_of_dark (t : ℕ) (p : Pixel)
    (h : ¬(t < p.r ∧ t < p.g ∧ t < p.b)) : (processPixel t p).a = p.a := by
  unfold processPixel; rw [if_neg h]

/-! ## Claim theorems -/

/-- Claim C1: for every viewport scale `s > 0`, overlay rectangle
`(x, y, w, h)` and page height `H`, the drawn point-space rectangle
satisfies `x_pt * s = x`, `y_pt = H - y/s - h/s`, `w_pt * s = w`,
`h_pt * s = h`; and in the concrete scenario with the scale computed as
`containerWidth / naturalWidth = 300/612`, overlay `(50, 50)` of size
`(150, 100)` and page height `792`, the result is within `0.1pt` of
`(102, 486, 306, 204)`. -/
theorem export_geometry (s H x y w h : ℚ) (hs : 0 < s) :
    (exportRect s H ⟨⟨x, y⟩, ⟨w, h⟩⟩).x * s = x
    ∧ (exportRect s H ⟨⟨x, y⟩, ⟨w, h⟩⟩).y = H - y / s - h / s
    ∧ (exportRect s H ⟨⟨x, y⟩, ⟨w, h⟩⟩).width * s = w
    ∧ (exportRect s H ⟨⟨x, y⟩, ⟨w, h⟩⟩).height * s = h
    ∧ |(exportRect (calculatedScale 300 612) 792 ⟨⟨50, 50⟩, ⟨150, 100⟩⟩).x
        - 102| ≤ 1/10
    ∧ |(exportRect (calculatedScale 300 612) 792 ⟨⟨50, 50⟩, ⟨150, 100⟩⟩).y
        - 486| ≤ 1/10
    ∧ |(exportRect (calculatedScale 300 612) 792 ⟨⟨50, 50⟩, ⟨150, 100⟩⟩).width
        - 306| ≤ 1/10
    ∧ |(exportRect (calculatedScale 300 612) 792 ⟨⟨50, 50⟩, ⟨150, 100⟩⟩).height
        - 204| ≤ 1/10 := by
  have hne : s ≠ 0 := ne_of_gt hs
  refine ⟨div_mul_cancel₀ x hne, rfl, div_mul_cancel₀ w hne,
    div_mul_cancel₀ h hne, ?_, ?_, ?_, ?_⟩ <;>
    norm_num [exportRect, calculatedScale]

theorem export_geometry_witness :
    (exportRect 1 792 ⟨⟨50, 50⟩, ⟨150, 100⟩⟩).x * 1 = 50 :=
  (export_geometry 1 792 50 50 150 100 (by norm_num)).1

/-- Claim C3: for every display scale `s > 0` and display rectangle,
converting to point space with the export transform and back with the
inverse transform (multiply by `s`, matching vertical flip) reproduces the
original rectangle exactly (hence within any floating-point tolerance). -/
theorem export_round_trip (scale pageHeight : ℚ) (s : OverlayState)
    (hs : 0 < scale) :
    inverseExportRect scale pageHeight (exportRect scale pageHeight s) = s := by
  obtain ⟨⟨x, y⟩, ⟨w, h⟩⟩ := s
  have hne : scale ≠ 0 := ne_of_gt hs
  simp only [exportRect, inverseExportRect, OverlayState.mk.injEq,
    Pos.mk.injEq, Size.mk.injEq]
  refine ⟨⟨?_, ?_⟩, ?_, ?_⟩ <;> field_simp
  ring

theorem export_round_trip_witness :
    inverseExportRect (1/2) 792 (exportRect (1/2) 792 ⟨⟨50, 50⟩, ⟨150, 100⟩⟩)
      = ⟨⟨50, 50⟩, ⟨150, 100⟩⟩ :=
  export_round_trip (1/2) 792 ⟨⟨50, 50⟩, ⟨150, 100⟩⟩ (by norm_num)

/-- Claim C7: after any prior history of committed move, resize and nudge
interactions, an explicit reset restores position `(50, 50)` and size
`(150, 100)`. -/
theorem reset_restores_defaults (bounds : Bounds) (st : ImageState)
    (history : List Interaction) :
    (handleImageReset (history.foldl (commitInteraction bounds) st)).position
        = ⟨50, 50⟩
    ∧ (handleImageReset (history.foldl (commitInteraction bounds) st)).size
        = ⟨150, 100⟩ :=
  ⟨rfl, rfl⟩

/-- Claim C9: with the current page in `[1, totalPages]`, next is a no-op
on the last page, previous is a no-op on the first page, and both
navigations always land inside `[1, totalPages]`. -/
theorem page_navigation_clamped (totalPages p : ℤ)
    (h1 : 1 ≤ p) (h2 : p ≤ totalPages) :
    (p = totalPages → goToNextPage totalPages p = p)
    ∧ (p = 1 → goToPrevPage p = p)
    ∧ (1 ≤ goToPrevPage p ∧ goToPrevPage p ≤ totalPages)
    ∧ (1 ≤ goToNextPage totalPages p ∧ goToNextPage totalPages p ≤ totalPages)
    := by
  unfold goToPrevPage goToNextPage
  omega

theorem page_navigation_clamped_witness : goToNextPage 3 3 = 3 :=
  (page_navigation_clamped 3 3 (by norm_num) (by norm_num)).1 rfl

theorem clamp_add_le (v c mx : ℚ) (h : c ≤ mx) : clamp v 0 (mx - c) + c ≤ mx := by
  have := clamp_le v 0 (mx - c) (by linarith)
  linarith

theorem add_clamp_le (v mn x mx : ℚ) (h : mn ≤ mx - x) :
    x + clamp v mn (mx - x) ≤ mx := by
  have := clamp_le v mn (mx - x) h
  linarith

/-- Claim C2 (amended): whenever the committed overlay state already
satisfies the six invariants for raster bounds `rw × rh` — in particular
the overlay fits inside the raster — every further committed move, resize
or keyboard-nudge interaction preserves all six invariants. -/
theorem committed_invariants_preserved (rw rh : ℚ) (s : OverlayState)
    (i : Interaction) (hinv : overlayInvariants rw rh s) :
    overlayInvariants rw rh (applyInteraction (rasterBounds rw rh) s i) := by
  obtain ⟨hx, hy, hxw, hyh, hw, hh⟩ := hinv
  cases i with
  | move px py offx offy =>
      simp only [applyInteraction, moveUpdate, rasterBounds]
      exact ⟨le_clamp _ _ _, le_clamp _ _ _,
        clamp_add_le _ _ _ (by linarith), clamp_add_le _ _ _ (by linarith),
        hw, hh⟩
  | resize px py =>
      simp only [applyInteraction, resizeUpdate, rasterBounds]
      exact ⟨hx, hy,
        add_clamp_le _ _ _ _ (by linarith), add_clamp_le _ _ _ _ (by linarith),
        le_clamp _ _ _, le_clamp _ _ _⟩
  | nudge key shiftKey =>
      simp only [applyInteraction, nudgeUpdate, rasterBounds]
      exact ⟨le_clamp _ _ _, le_clamp _ _ _,
        clamp_add_le _ _ _ (by linarith), clamp_add_le _ _ _ (by linarith),
        hw, hh⟩

theorem committed_invariants_preserved_witness :
    overlayInvariants 300 300
      (applyInteraction (rasterBounds 300 300) ⟨⟨50, 50⟩, ⟨150, 100⟩⟩
        (.nudge .right false)) :=
  committed_invariants_preserved 300 300 ⟨⟨50, 50⟩, ⟨150, 100⟩⟩
    (.nudge .right false) (by norm_num [overlayInvariants])

/-- Claim C2 is false as stated: on a 100-pixel-wide raster the default
overlay (width 150) committed by a move lands at `x = 0` with
`x + width = 150 > 100`, violating `x + w ≤ rasterWidth`. -/
theorem committed_invariants_counterexample :
    ¬ overlayInvariants 100 300
      (applyInteraction (rasterBounds 100 300) ⟨⟨50, 50⟩, ⟨150, 100⟩⟩
        (.move 0 0 0 0)) := by
  norm_num [overlayInvariants, applyInteraction, moveUpdate, rasterBounds,
    clamp, max_def, min_def]

/-- Claim C4 (amended): an out-of-range `pageIndex` does make the export
fail before any drawing or serialization, but only because the page lookup
yields `undefined` and the later `page.getHeight()` call throws — caught by
the generic handler — and only after the image has already been embedded;
there is no dedicated page-range rejection. -/
theorem page_out_of_range_behavior (doc : PdfFile) (img : ImageFile)
    (overlay : OverlayState) (pageIndex : ℤ) (scale : ℚ)
    (hmime : img.mime = "image/png" ∨ img.mime = "image/jpeg")
    (hrange : pageIndex < 0 ∨ (doc.pageHeights.length : ℤ) ≤ pageIndex) :
    runMergeBody doc img overlay pageIndex scale =
      ⟨.error .pageUndefined, true, false, false⟩ := by
  have hnone := jsIndex_eq_none doc.pageHeights pageIndex hrange
  rcases hmime with h | h <;>
    simp [runMergeBody, embedImage, h, hnone]

theorem page_out_of_range_behavior_witness :
    runMergeBody ⟨"doc.pdf", [792]⟩ ⟨"img.jpg", "image/jpeg"⟩
        ⟨⟨50, 50⟩, ⟨150, 100⟩⟩ 2 1 =
      ⟨.error .pageUndefined, true, false, false⟩ :=
  page_out_of_range_behavior ⟨"doc.pdf", [792]⟩ ⟨"img.jpg", "image/jpeg"⟩
    ⟨⟨50, 50⟩, ⟨150, 100⟩⟩ 2 1 (Or.inr rfl) (Or.inr (by norm_num))

/-- Claim C4 is false as stated: on a one-page document, exporting at
`pageIndex = 1` fails with the undefined-page TypeError, which is not the
dedicated `PageIndexOutOfRange` rejection, and the image has already been
embedded by the time the failure occurs. -/
theorem page_out_of_range_counterexample :
    (runMergeBody ⟨"doc.pdf", [792]⟩ ⟨"img.png", "image/png"⟩
        ⟨⟨50, 50⟩, ⟨150, 100⟩⟩ 1 1).result = .error .pageUndefined
    ∧ MergeError.pageUndefined ≠ MergeError.pageIndexOutOfRange
    ∧ (runMergeBody ⟨"doc.pdf", [792]⟩ ⟨"img.png", "image/png"⟩
        ⟨⟨50, 50⟩, ⟨150, 100⟩⟩ 1 1).embedded = true :=
  ⟨rfl, by decide, rfl⟩

/-- Claim C5: an export-time image whose MIME type is neither `image/png`
nor `image/jpeg` fails with the unsupported-image-type error, with nothing
embedded, drawn or saved. -/
theorem unsupported_image_type_rejected (doc : PdfFile) (img : ImageFile)
    (overlay : OverlayState) (pageIndex : ℤ) (scale : ℚ)
    (h1 : img.mime ≠ "image/png") (h2 : img.mime ≠ "image/jpeg") :
    runMergeBody doc img overlay pageIndex scale =
      ⟨.error .unsupportedImageType, false, false, false⟩ := by
  simp [runMergeBody, embedImage, h1, h2]

theorem unsupported_image_type_rejected_witness :
    runMergeBody ⟨"doc.pdf", [792]⟩ ⟨"img.gif", "image/gif"⟩
        ⟨⟨50, 50⟩, ⟨150, 100⟩⟩ 0 1 =
      ⟨.error .unsupportedImageType, false, false, false⟩ :=
  unsupported_image_type_rejected ⟨"doc.pdf", [792]⟩ ⟨"img.gif", "image/gif"⟩
    ⟨⟨50, 50⟩, ⟨150, 100⟩⟩ 0 1 (by decide) (by decide)

/-- Claim C6: invoking the merge with no PDF document and no image file
sets only the missing-files error message; no embed, draw or save is
performed and every other session field is unchanged. -/
theorem missing_inputs_early_return (pageIndex : ℤ) (scale : ℚ)
    (st : AppState) (hp : st.pdfFile = none) (hi : st.image.file = none) :
    mergeAndDownload pageIndex scale st =
      ({ st with error := some "errorMissingFiles" },
        ⟨.error .missingInputs, false, false, false⟩) := by
  simp [mergeAndDownload, hp, hi, errorMessage]

theorem missing_inputs_early_return_witness :
    mergeAndDownload 0 1 ⟨none, initialImageState, none, false⟩ =
      (⟨none, initialImageState, some "errorMissingFiles", false⟩,
        ⟨.error .missingInputs, false, false, false⟩) :=
  missing_inputs_early_return 0 1 ⟨none, initialImageState, none, false⟩
    rfl rfl

/-- Claim C8: background removal always re-encodes to PNG; each pixel whose
R, G and B all exceed 240 gets alpha 0 and every other pixel is unchanged;
the fully white 2×2 image comes out with alpha 0 everywhere and the fully
black 2×2 image is unchanged. -/
theorem background_removal_correct (img : RawImage) :
    (removeWhiteBackground img).2 = OutputFormat.png
    ∧ (∀ (i : ℕ) (p : Pixel), img.pixels[i]? = some p →
        (removeWhiteBackground img).1.pixels[i]? =
          some (if 240 < p.r ∧ 240 < p.g ∧ 240 < p.b then
              ⟨p.r, p.g, p.b, 0⟩ else p))
    ∧ (∀ p ∈ (removeWhiteBackground white2x2).1.pixels, p.a = 0)
    ∧ (removeWhiteBackground black2x2).1 = black2x2 := by
  refine ⟨rfl, ?_, by decide, by decide⟩
  intro i p hp
  simp [removeWhiteBackground, List.getElem?_map, hp, processPixel]

theorem background_removal_correct_witness :
    (removeWhiteBackground white2x2).1.pixels[0]? =
      some ⟨255, 255, 255, 0⟩ := by
  have h := (background_removal_correct white2x2).2.1 0 ⟨255, 255, 255, 255⟩
    rfl
  simpa using h

/-- Claim C10: background removal preserves the image dimensions and pixel
count, preserves every pixel's R, G and B channels, and preserves alpha on
every pixel that is not above the 240 brightness threshold on all three
channels. -/
theorem background_removal_frame (img : RawImage) :
    (removeWhiteBackground img).1.width = img.width
    ∧ (removeWhiteBackground img).1.height = img.height
    ∧ (removeWhiteBackground img).1.pixels.length = img.pixels.length
    ∧ ∀ (i : ℕ) (p : Pixel), img.pixels[i]? = some p →
        ∃ q, (removeWhiteBackground img).1.pixels[i]? = some q
          ∧ q.r = p.r ∧ q.g = p.g ∧ q.b = p.b
          ∧ (¬(240 < p.r ∧ 240 < p.g ∧ 240 < p.b) → q.a = p.a) := by
  refine ⟨rfl, rfl, by simp [removeWhiteBackground], ?_⟩
  intro i p hp
  exact ⟨processPixel 240 p,
    by simp [removeWhiteBackground, List.getElem?_map, hp],
    processPixel_r 240 p, processPixel_g 240 p, processPixel_b 240 p,
    processPixel_a_of_dark 240 p⟩

theorem background_removal_frame_witness :
    ∃ q, (removeWhiteBackground black2x2).1.pixels[0]? = some q
      ∧ q.r = 0 ∧ q.g = 0 ∧ q.b = 0
      ∧ (¬((240:ℕ) < 0 ∧ (240:ℕ) < 0 ∧ (240:ℕ) < 0) → q.a = 255) :=
  (background_removal_frame black2x2).2.2.2 0 ⟨0, 0, 0, 255⟩ rfl

end PDFImageMerger
